import Mathlib

/-! Verification of the constraint-enforcement engine of the FOAM pipeline
(`foam/additional_constraints.py`): the n-sigma spectroscopic error-box
filter (`spectro_constraint`, lines 30-35), the age bracketing on the
evolutionary grid (`get_age`, lines 69-81), and the binary-companion
compatibility search over isochrone-clouds (`enforce_binary_constraints`,
lines 106-141).

Modelling choices.  Numbers are exact rationals.  `np.log10` is kept
abstract as a function parameter `log10 : ℚ → ℚ`, since every claim is about
*where* the logarithm is applied (linear space vs log space), never about
its numeric value.  Python's `round(x, n)` (round half to even on the
decimal value) is `pyRound n`, Python's `int()` truncation toward zero is
`pyInt`, and `np.isclose` with its default tolerances (rtol = 1e-5,
atol = 1e-8) is `isclose`.  A pandas DataFrame is a `List` of rows; each
row structure carries the columns the code touches, plus the row label
`name` for `df_Theo` rows (used by `df.drop`).  A fatal runtime failure
(`sys.exit`, the exception raised by `int()` on a non-singleton selection,
a missing dict key) is `Except.error`; `Except.ok` is a run that reaches
the final write of the filtered table. -/

namespace Foam

/-- Fatal outcomes of the constraint run.  `gridLookupError` models the
exception raised by `int(df.loc[...].age)` when the selection does not hold
exactly one row; `valueError` models `max()` / `min()` on an empty
collection of `Xc` values; `keyError` models `isocloud_grid_summary[model.Z]`
with an absent metallicity key; `missingInput` models the logged
`sys.exit()` when a companion spec is given without the isocloud grid or
the spectroscopic grid file. -/
inductive Err where
  | gridLookupError
  | valueError
  | keyError
  | missingInput
  deriving DecidableEq

/-- Round half to even to an integer, the rounding mode of Python `round`. -/
def roundHalfEven (x : ℚ) : ℤ :=
  let n := ⌊x⌋
  let frac := x - n
  if frac < 1/2 then n
  else if frac > 1/2 then n + 1
  else if n % 2 = 0 then n else n + 1

/-- Python `round(x, ndigits)`: round half to even at `ndigits` decimals. -/
def pyRound (ndigits : ℕ) (x : ℚ) : ℚ :=
  (roundHalfEven (x * 10 ^ ndigits) : ℚ) / 10 ^ ndigits

/-- Python `int(x)`: truncation toward zero. -/
def pyInt (q : ℚ) : ℤ :=
  if 0 ≤ q then ⌊q⌋ else ⌈q⌉

/-- `np.isclose(a, b)` with default tolerances:
`|a - b| <= atol + rtol * |b|`, `rtol = 1e-5`, `atol = 1e-8`. -/
def isclose (a b : ℚ) : Bool :=
  decide (|a - b| ≤ 1/100000000 + (1/100000) * |b|)

/-- Row 0 of the whitespace-delimited observations table: the observed
value and 1-sigma error of each primary-star observable
(`Obs_dFrame['X'][0]` and `Obs_dFrame['X_err'][0]`). -/
structure ObsRow where
  Teff : ℚ
  Teff_err : ℚ
  logg : ℚ
  logg_err : ℚ
  logL : ℚ
  logL_err : ℚ
  deriving DecidableEq

/-- One row of `df_Theo` (the merit-values grid): row label `name`, the
grid coordinates, the derived observables and the merit value. -/
structure TheoRow where
  name : ℕ
  Z : ℚ
  M : ℚ
  logD : ℚ
  aov : ℚ
  fov : ℚ
  Xc : ℚ
  logTeff : ℚ
  logg : ℚ
  logL : ℚ
  meritValue : ℚ
  deriving DecidableEq

/-- One row of the spectroscopic model grid `spectroGrid_dataFrame`:
grid coordinates and the age column read by `get_age`. -/
structure GridRow where
  Z : ℚ
  M : ℚ
  logD : ℚ
  aov : ℚ
  fov : ℚ
  Xc : ℚ
  age : ℚ
  deriving DecidableEq

/-- One row of an isochrone-cloud companion track. -/
structure IsoRow where
  star_age : ℚ
  log_Teff : ℚ
  log_g : ℚ
  log_L : ℚ
  deriving DecidableEq

/-- The `spectro_companion` dict: mass ratio, its error, which star
pulsates, and the (optional) companion observables with their errors. -/
structure CompanionSpec where
  q : ℚ
  q_err : ℚ
  primary_pulsates : Bool
  Teff : Option ℚ
  Teff_err : ℚ
  logg : Option ℚ
  logg_err : ℚ
  logL : Option ℚ
  logL_err : ℚ
  deriving DecidableEq

/-- `isocloud_grid_summary[Z]`: mapping companion mass to its track
(a Python dict, i.e. an ordered association list). -/
abbrev IsoDict : Type := List (ℚ × List IsoRow)

/-- The full isocloud grid summary: metallicity to per-mass tracks. -/
abbrev IsoGridSummary : Type := List (ℚ × IsoDict)

/-- The primary error-box filter of `spectro_constraint`
(`additional_constraints.py` lines 30-35): six successive strict cuts on
`logTeff` (bounds taken as `log10` of the *linear-space* n-sigma interval),
`logg` and `logL` (bounds directly in log space). -/
def spectro_primary_filter (log10 : ℚ → ℚ) (obs : ObsRow) (nsigma : ℚ)
    (df : List TheoRow) : List TheoRow :=
  let df1 := df.filter (fun r => decide (r.logTeff < log10 (obs.Teff + nsigma * obs.Teff_err)))
  let df2 := df1.filter (fun r => decide (r.logTeff > log10 (obs.Teff - nsigma * obs.Teff_err)))
  let df3 := df2.filter (fun r => decide (r.logg < obs.logg + nsigma * obs.logg_err))
  let df4 := df3.filter (fun r => decide (r.logg > obs.logg - nsigma * obs.logg_err))
  let df5 := df4.filter (fun r => decide (r.logL < obs.logL + nsigma * obs.logL_err))
  let df6 := df5.filter (fun r => decide (r.logL > obs.logL - nsigma * obs.logL_err))
  df6

end Foam

namespace Foam

/-- C1: a model-grid row survives the primary error-box filter iff its
observables lie strictly inside the n-sigma box of observation row 0:
`logTeff` strictly between `log10(Teff - n*err)` and `log10(Teff + n*err)`
(the Teff bounds computed in linear space before `log10`), `logg` and
`logL` strictly between `value ± n*err`; a row equal to a bound is
excluded, since every comparison is strict. -/
theorem spectro_primary_filter_mem_iff (log10 : ℚ → ℚ) (obs : ObsRow)
    (nsigma : ℚ) (df : List TheoRow) (r : TheoRow) :
    r ∈ spectro_primary_filter log10 obs nsigma df ↔
      r ∈ df ∧
      r.logTeff < log10 (obs.Teff + nsigma * obs.Teff_err) ∧
      r.logTeff > log10 (obs.Teff - nsigma * obs.Teff_err) ∧
      r.logg < obs.logg + nsigma * obs.logg_err ∧
      r.logg > obs.logg - nsigma * obs.logg_err ∧
      r.logL < obs.logL + nsigma * obs.logL_err ∧
      r.logL > obs.logL - nsigma * obs.logL_err := by
  simp only [spectro_primary_filter, List.mem_filter, decide_eq_true_eq]
  tauto

end Foam

deriving instance DecidableEq for Except

namespace Foam

/-- `pd.unique(df[np.isclose(df.Z, model.Z)].Xc)`: the distinct `Xc` values
of the metallicity-matched rows.  Only its maximum and minimum are consumed
by `get_age`, so the order in which duplicates are removed is irrelevant. -/
def unique_xc (model : TheoRow) (df : List GridRow) : List ℚ :=
  ((df.filter (fun r => isclose r.Z model.Z)).map (fun r => r.Xc)).dedup

/-- The selection `df.loc[np.isclose(df.Z, model.Z) & np.isclose(df.M, model.M)
& np.isclose(df.logD, model.logD) & np.isclose(df.aov, model.aov)
& np.isclose(df.fov, model.fov) & np.isclose(df.Xc, xc)]` used by every
age lookup in `get_age`. -/
def lookupMatches (model : TheoRow) (df : List GridRow) (xc : ℚ) : List GridRow :=
  df.filter (fun r => isclose r.Z model.Z && isclose r.M model.M &&
    isclose r.logD model.logD && isclose r.aov model.aov &&
    isclose r.fov model.fov && isclose r.Xc xc)

/-- `int(df.loc[...].age)`: converts the selected age column to an integer,
which succeeds only when the selection holds exactly one row and raises
otherwise (modelled as `Err.gridLookupError`). -/
def lookupAge (model : TheoRow) (df : List GridRow) (xc : ℚ) : Except Err ℤ :=
  match lookupMatches model df xc with
  | [r] => Except.ok (pyInt r.age)
  | _ => Except.error Err.gridLookupError

/-- `get_age` (`additional_constraints.py` lines 69-81): bracket the age of
`model` between its neighbours at `Xc ± 0.01` on the same track, with the
endpoint cases of lines 71-77.  `max()`/`min()` of an empty `unique_xc`
raises (modelled as `Err.valueError`). -/
def get_age (model : TheoRow) (df : List GridRow) : Except Err (ℤ × ℤ) :=
  match (unique_xc model df).max?, (unique_xc model df).min? with
  | some mx, some mn =>
    if |model.Xc - mx| < 1/10000 then
      match lookupAge model df (pyRound 2 (model.Xc - 1/100)) with
      | Except.ok max_age => Except.ok (0, max_age)
      | Except.error e => Except.error e
    else if |model.Xc - mn| < 1/10000 then
      match lookupAge model df (pyRound 2 (model.Xc + 1/100)),
            lookupAge model df (pyRound 2 model.Xc) with
      | Except.ok min_age, Except.ok age => Except.ok (min_age, age + age - min_age)
      | Except.error e, _ => Except.error e
      | Except.ok _, Except.error e => Except.error e
    else
      match lookupAge model df (pyRound 2 (model.Xc + 1/100)),
            lookupAge model df (pyRound 2 (model.Xc - 1/100)) with
      | Except.ok min_age, Except.ok max_age => Except.ok (min_age, max_age)
      | Except.error e, _ => Except.error e
      | Except.ok _, Except.error e => Except.error e
  | _, _ => Except.error Err.valueError

/-- Synthetic three-step track at `Xc = 0.70, 0.69, 0.68` (ages 100, 200,
300), the boundary-case test data of the specification. -/
def gridRow70 : GridRow :=
  { Z := 1/50, M := 3, logD := 0, aov := 0, fov := 0, Xc := 7/10, age := 100 }

/-- Middle step of the synthetic track. -/
def gridRow69 : GridRow :=
  { Z := 1/50, M := 3, logD := 0, aov := 0, fov := 0, Xc := 69/100, age := 200 }

/-- Oldest step of the synthetic track. -/
def gridRow68 : GridRow :=
  { Z := 1/50, M := 3, logD := 0, aov := 0, fov := 0, Xc := 17/25, age := 300 }

/-- The synthetic spectroscopic grid. -/
def sampleGrid : List GridRow := [gridRow70, gridRow69, gridRow68]

/-- A `df_Theo` row sitting at the youngest step (`Xc = 0.70`) of the
synthetic track. -/
def model70 : TheoRow :=
  { name := 0, Z := 1/50, M := 3, logD := 0, aov := 0, fov := 0, Xc := 7/10,
    logTeff := 4, logg := 4, logL := 1, meritValue := 0 }

/-- A `df_Theo` row at the interior step (`Xc = 0.69`) of the synthetic
track. -/
def model69 : TheoRow :=
  { name := 1, Z := 1/50, M := 3, logD := 0, aov := 0, fov := 0, Xc := 69/100,
    logTeff := 4, logg := 4, logL := 1, meritValue := 0 }

end Foam

namespace Foam

/-- C2: with `mxXc`/`mnXc` the extreme sampled `Xc` values of the
metallicity-matched track, the age bracket is: near the maximum (within
1e-4), `(0, age at Xc - 0.01)`; near the minimum, `(age at Xc + 0.01,
age + age - min_age)` with `age` the model's own looked-up age; otherwise
`(age at Xc + 0.01, age at Xc - 0.01)`.  Every lookup matches the full
coordinate tuple by `np.isclose` tolerance (`lookupAge`), and every
returned age is truncated to an integer (`pyInt` inside `lookupAge`). -/
theorem get_age_bracket_cases (model : TheoRow) (df : List GridRow) (mxXc mnXc : ℚ)
    (h1 : (unique_xc model df).max? = some mxXc)
    (h2 : (unique_xc model df).min? = some mnXc) :
    get_age model df =
      if |model.Xc - mxXc| < 1/10000 then
        match lookupAge model df (pyRound 2 (model.Xc - 1/100)) with
        | Except.ok max_age => Except.ok (0, max_age)
        | Except.error e => Except.error e
      else if |model.Xc - mnXc| < 1/10000 then
        match lookupAge model df (pyRound 2 (model.Xc + 1/100)),
              lookupAge model df (pyRound 2 model.Xc) with
        | Except.ok min_age, Except.ok age => Except.ok (min_age, age + age - min_age)
        | Except.error e, _ => Except.error e
        | Except.ok _, Except.error e => Except.error e
      else
        match lookupAge model df (pyRound 2 (model.Xc + 1/100)),
              lookupAge model df (pyRound 2 (model.Xc - 1/100)) with
        | Except.ok min_age, Except.ok max_age => Except.ok (min_age, max_age)
        | Except.error e, _ => Except.error e
        | Except.ok _, Except.error e => Except.error e := by
  simp only [get_age, h1, h2]

/-- C2 witness: at the youngest step of the synthetic track the bracket is
`(0, 200)`, the age of the neighbour one step older. -/
theorem get_age_bracket_cases_witness :
    ((unique_xc model70 sampleGrid).max? = some (7/10) ∧
     (unique_xc model70 sampleGrid).min? = some (17/25)) ∧
    get_age model70 sampleGrid = Except.ok (0, 200) := by
  refine ⟨⟨by with_unfolding_all decide, by with_unfolding_all decide⟩, ?_⟩
  rw [get_age_bracket_cases model70 sampleGrid (7/10) (17/25) (by with_unfolding_all decide) (by with_unfolding_all decide)]
  with_unfolding_all decide

/-- C5: whenever the full-coordinate selection of an age lookup holds zero
rows or more than one row, the lookup signals the fatal grid-lookup error
instead of picking a row. -/
theorem lookupAge_nonunique_error (model : TheoRow) (df : List GridRow) (xc : ℚ)
    (h : (lookupMatches model df xc).length ≠ 1) :
    lookupAge model df xc = Except.error Err.gridLookupError := by
  rcases hm : lookupMatches model df xc with - | ⟨r, rest⟩
  · simp [lookupAge, hm]
  · rcases rest with - | ⟨s, t⟩
    · exact absurd (by simp [hm]) h
    · simp [lookupAge, hm]

/-- C5 witness: on an empty grid the selection is empty and the lookup
fails fatally. -/
theorem lookupAge_nonunique_error_witness :
    (lookupMatches model70 [] (7/10)).length ≠ 1 ∧
    lookupAge model70 [] (7/10) = Except.error Err.gridLookupError :=
  ⟨by with_unfolding_all decide, lookupAge_nonunique_error model70 [] (7/10) (by with_unfolding_all decide)⟩

end Foam

namespace Foam

/-- The age-window restriction of `enforce_binary_constraints` line 123:
`df[(df.star_age < max_age) & (df.star_age > min_age)]` — both comparisons
strict. -/
def age_restrict (min_age max_age : ℤ) (track : List IsoRow) : List IsoRow :=
  track.filter (fun r =>
    decide (r.star_age < (max_age : ℚ)) && decide (r.star_age > (min_age : ℚ)))

/-- A companion-track row sitting exactly at an age-bracket bound. -/
def isoRowAtBound : IsoRow := { star_age := 100, log_Teff := 4, log_g := 4, log_L := 1 }

end Foam

namespace Foam

/-- C6 counterexample: for the interior model of the synthetic track the
age bracketer returns `(100, 300)`, yet a companion-track row whose
`star_age` equals the lower bound 100 exactly is NOT admitted into the
age-restricted track — the code's comparisons on line 123 are strict, so
the bracket is exclusive, not inclusive as claimed. -/
theorem age_restrict_inclusive_counterexample :
    get_age model69 sampleGrid = Except.ok (100, 300) ∧
    isoRowAtBound.star_age = ((100 : ℤ) : ℚ) ∧
    isoRowAtBound ∉ age_restrict 100 300 [isoRowAtBound] := by
  exact ⟨by with_unfolding_all decide, by with_unfolding_all decide, by with_unfolding_all decide⟩

/-- C6 amended: the age bracket is exclusive — a companion-track row whose
`star_age` equals `min_age` or `max_age` exactly is rejected by the age
restriction before the companion error-box filter is applied. -/
theorem age_restrict_excludes_exact_bounds (min_age max_age : ℤ)
    (track : List IsoRow) (r : IsoRow)
    (h : r.star_age = (min_age : ℚ) ∨ r.star_age = (max_age : ℚ)) :
    r ∉ age_restrict min_age max_age track := by
  intro hmem
  simp only [age_restrict, List.mem_filter, Bool.and_eq_true, decide_eq_true_eq] at hmem
  rcases h with h | h
  · exact absurd hmem.2.2 (by rw [h]; exact lt_irrefl _)
  · exact absurd hmem.2.1 (by rw [h]; exact lt_irrefl _)

/-- C6 amended witness: the row at `star_age = 100` is rejected for the
bracket `(100, 300)`. -/
theorem age_restrict_excludes_exact_bounds_witness :
    (isoRowAtBound.star_age = ((100 : ℤ) : ℚ) ∨ isoRowAtBound.star_age = ((300 : ℤ) : ℚ)) ∧
    isoRowAtBound ∉ age_restrict 100 300 [isoRowAtBound] :=
  ⟨Or.inl (by with_unfolding_all decide),
   age_restrict_excludes_exact_bounds 100 300 [isoRowAtBound] isoRowAtBound (Or.inl (by with_unfolding_all decide))⟩

end Foam

namespace Foam

/-- The companion mass range of `enforce_binary_constraints` lines 110-115:
`(M2_min, M2_max)`, each bound rounded to one decimal with Python `round`. -/
def companionMassRange (M q q_err : ℚ) (primary_pulsates : Bool) : ℚ × ℚ :=
  if primary_pulsates then
    (pyRound 1 (M * (q - q_err)), pyRound 1 (M * (q + q_err)))
  else
    (pyRound 1 (M / (q + q_err)), pyRound 1 (M / (q - q_err)))

/-- C4 spec-side definition, written from the specification text of
§4.3 step 1: if the primary is the pulsator the companion mass lies in
`[M·(q−q_err), M·(q+q_err)]`, if the secondary is the pulsator it lies in
`[M/(q+q_err), M/(q−q_err)]`, bounds rounded to 1 decimal. -/
def companionMassRange_spec (M q q_err : ℚ) (primary_pulsates : Bool) : ℚ × ℚ :=
  ((if primary_pulsates then pyRound 1 (M * (q - q_err)) else pyRound 1 (M / (q + q_err))),
   (if primary_pulsates then pyRound 1 (M * (q + q_err)) else pyRound 1 (M / (q - q_err))))

/-- The per-track companion error-box filter of `enforce_binary_constraints`
lines 129-137: for each observable present in the companion spec, two
strict cuts; absent observables impose no restriction.  The `Teff` bounds
are taken as `log10` of the linear-space n-sigma interval. -/
def companionBoxFilter (log10 : ℚ → ℚ) (spec : CompanionSpec) (nsigma : ℚ)
    (df0 : List IsoRow) : List IsoRow :=
  let df1 := match spec.Teff with
    | some teff =>
        (df0.filter (fun r => decide (r.log_Teff < log10 (teff + nsigma * spec.Teff_err)))).filter
          (fun r => decide (r.log_Teff > log10 (teff - nsigma * spec.Teff_err)))
    | none => df0
  let df2 := match spec.logg with
    | some lg =>
        (df1.filter (fun r => decide (r.log_g < lg + nsigma * spec.logg_err))).filter
          (fun r => decide (r.log_g > lg - nsigma * spec.logg_err))
    | none => df1
  let df3 := match spec.logL with
    | some ll =>
        (df2.filter (fun r => decide (r.log_L < ll + nsigma * spec.logL_err))).filter
          (fun r => decide (r.log_L > ll - nsigma * spec.logL_err))
    | none => df2
  df3

/-- One iteration of the loop of `enforce_binary_constraints` lines
119-139: a candidate track contributes (does not `continue`) iff its mass
lies inside `[M2_min, M2_max]`, the age-restricted track is non-empty, and
the companion error-box filter leaves at least one row. -/
def trackPasses (log10 : ℚ → ℚ) (spec : CompanionSpec) (nsigma : ℚ)
    (min_age max_age : ℤ) (M2 : ℚ × ℚ) (key_Mass : ℚ) (track : List IsoRow) : Bool :=
  if key_Mass < M2.1 ∨ key_Mass > M2.2 then false
  else
    let df := age_restrict min_age max_age track
    if df.length = 0 then false
    else decide (0 < (companionBoxFilter log10 spec nsigma df).length)

/-- The full loop of lines 119-141: the model remains valid (the function
returns `None`) iff some candidate track passes; `List.any` is the
short-circuiting iteration of the Python `for` loop with its early
`return None`. -/
def companionCompatible (log10 : ℚ → ℚ) (spec : CompanionSpec) (nsigma : ℚ)
    (min_age max_age : ℤ) (M2 : ℚ × ℚ) (isoDict : IsoDict) : Bool :=
  isoDict.any (fun p => trackPasses log10 spec nsigma min_age max_age M2 p.1 p.2)

/-- `isocloud_grid_summary[model.Z]`: Python dict lookup by exact key
equality; a missing key raises (`Err.keyError`). -/
def lookupDict (iso : IsoGridSummary) (z : ℚ) : Except Err IsoDict :=
  match iso.find? (fun p => decide (p.1 = z)) with
  | some p => Except.ok p.2
  | none => Except.error Err.keyError

/-- `enforce_binary_constraints` (lines 106-141): bracket the model's age,
compute the companion mass range from the mass ratio, and scan the
per-metallicity isocloud tracks; returns `none` (keep the model) when some
track passes every constraint, and the row's own label (drop it)
otherwise. -/
def enforce_binary_constraints (log10 : ℚ → ℚ) (row : TheoRow) (spec : CompanionSpec)
    (iso : IsoGridSummary) (nsigma : ℚ) (grid : List GridRow) : Except Err (Option ℕ) :=
  match get_age row grid with
  | Except.error e => Except.error e
  | Except.ok ages =>
    let M2 := companionMassRange row.M spec.q spec.q_err spec.primary_pulsates
    match lookupDict iso row.Z with
    | Except.error e => Except.error e
    | Except.ok isoDict =>
      if companionCompatible log10 spec nsigma ages.1 ages.2 M2 isoDict then
        Except.ok none
      else
        Except.ok (some row.name)

/-- A permutation of a list leaves `List.any` unchanged (helper for the
order-independence part of the companion search). -/
theorem perm_any_eq {α : Type} {l1 l2 : List α} (h : l1.Perm l2) (f : α → Bool) :
    l1.any f = l2.any f := by
  cases hb : l2.any f
  · rw [List.any_eq_false] at hb ⊢
    exact fun x hx => hb x (h.subset hx)
  · rw [List.any_eq_true] at hb ⊢
    obtain ⟨x, hx, hfx⟩ := hb
    exact ⟨x, h.symm.subset hx, hfx⟩

end Foam

namespace Foam

/-- Companion spec used in concrete witnesses: `q = 1 ± 0.1`, primary
pulsates, only a `logg = 4 ± 0.1` companion constraint. -/
def sampleSpec : CompanionSpec :=
  { q := 1, q_err := 1/10, primary_pulsates := true, Teff := none, Teff_err := 0,
    logg := some 4, logg_err := 1/10, logL := none, logL_err := 0 }

/-- Candidate track whose only row fails the companion `logg` box. -/
def sampleTrack1 : List IsoRow := [{ star_age := 200, log_Teff := 4, log_g := 5, log_L := 1 }]

/-- Candidate track whose only row satisfies every companion constraint. -/
def sampleTrack2 : List IsoRow := [{ star_age := 200, log_Teff := 4, log_g := 4, log_L := 1 }]

/-- Mass-to-track dict where only the second track satisfies the box. -/
def sampleDict : IsoDict := [(14/5, sampleTrack1), (3, sampleTrack2)]

/-- The same dict iterated in the opposite order. -/
def sampleDictRev : IsoDict := [(3, sampleTrack2), (14/5, sampleTrack1)]

/-- Isocloud grid summary holding `sampleDict` at `Z = 0.02`. -/
def sampleIso : IsoGridSummary := [(1/50, sampleDict)]

end Foam

namespace Foam

/-- C3: with the age bracket and metallicity dict resolved, (i) the binary
check keeps the model (returns `None`) iff some candidate track passes the
mass-range, age-window and error-box constraints, (ii) whenever the head
track passes, the search over the head followed by ANY tail reports
compatible (later tracks are never needed), and (iii) the boolean outcome
is invariant under any permutation of the candidate tracks. -/
theorem enforce_binary_shortcircuit_and_order (log10 : ℚ → ℚ) (spec : CompanionSpec)
    (nsigma : ℚ) (grid : List GridRow) (iso : IsoGridSummary) (row : TheoRow)
    (mn mx : ℤ) (d d2 rest : IsoDict) (m : ℚ) (t : List IsoRow)
    (h1 : get_age row grid = Except.ok (mn, mx))
    (h2 : lookupDict iso row.Z = Except.ok d)
    (h3 : trackPasses log10 spec nsigma mn mx
      (companionMassRange row.M spec.q spec.q_err spec.primary_pulsates) m t = true)
    (h4 : d.Perm d2) :
    (enforce_binary_constraints log10 row spec iso nsigma grid = Except.ok none ↔
      companionCompatible log10 spec nsigma mn mx
        (companionMassRange row.M spec.q spec.q_err spec.primary_pulsates) d = true) ∧
    companionCompatible log10 spec nsigma mn mx
      (companionMassRange row.M spec.q spec.q_err spec.primary_pulsates) ((m, t) :: rest) = true ∧
    companionCompatible log10 spec nsigma mn mx
      (companionMassRange row.M spec.q spec.q_err spec.primary_pulsates) d2 =
      companionCompatible log10 spec nsigma mn mx
        (companionMassRange row.M spec.q spec.q_err spec.primary_pulsates) d := by
  refine ⟨?_, ?_, ?_⟩
  · simp only [enforce_binary_constraints, h1, h2]
    cases hcc : companionCompatible log10 spec nsigma mn mx
      (companionMassRange row.M spec.q spec.q_err spec.primary_pulsates) d <;>
      simp [hcc]
  · simp [companionCompatible, h3]
  · exact perm_any_eq h4.symm _

/-- C3 witness: on the synthetic grid and the two-track dict where only the
second track satisfies the error box, the model is kept, the search is
already positive on the passing track alone, and reversing the dict order
leaves the outcome unchanged. -/
theorem enforce_binary_shortcircuit_and_order_witness :
    (get_age model69 sampleGrid = Except.ok (100, 300) ∧
     lookupDict sampleIso model69.Z = Except.ok sampleDict ∧
     trackPasses (fun x => x) sampleSpec 2 100 300
       (companionMassRange model69.M sampleSpec.q sampleSpec.q_err sampleSpec.primary_pulsates)
       3 sampleTrack2 = true ∧
     sampleDict.Perm sampleDictRev) ∧
    (enforce_binary_constraints (fun x => x) model69 sampleSpec sampleIso 2 sampleGrid =
        Except.ok none ↔
      companionCompatible (fun x => x) sampleSpec 2 100 300
        (companionMassRange model69.M sampleSpec.q sampleSpec.q_err sampleSpec.primary_pulsates)
        sampleDict = true) ∧
    companionCompatible (fun x => x) sampleSpec 2 100 300
      (companionMassRange model69.M sampleSpec.q sampleSpec.q_err sampleSpec.primary_pulsates)
      ((3, sampleTrack2) :: []) = true ∧
    companionCompatible (fun x => x) sampleSpec 2 100 300
      (companionMassRange model69.M sampleSpec.q sampleSpec.q_err sampleSpec.primary_pulsates)
      sampleDictRev =
      companionCompatible (fun x => x) sampleSpec 2 100 300
        (companionMassRange model69.M sampleSpec.q sampleSpec.q_err sampleSpec.primary_pulsates)
        sampleDict := by
  have hperm : sampleDict.Perm sampleDictRev :=
    List.Perm.swap (3, sampleTrack2) (14/5, sampleTrack1) []
  have h := enforce_binary_shortcircuit_and_order (fun x => x) sampleSpec 2 sampleGrid
    sampleIso model69 100 300 sampleDict sampleDictRev [] 3 sampleTrack2
    (by with_unfolding_all decide) (by with_unfolding_all decide)
    (by with_unfolding_all decide) hperm
  exact ⟨⟨by with_unfolding_all decide, by with_unfolding_all decide,
    by with_unfolding_all decide, hperm⟩, h.1, h.2.1, h.2.2⟩

/-- C4: the companion mass range computed at lines 110-115 agrees with the
range the specification prescribes — `[round(M*(q-q_err),1),
round(M*(q+q_err),1)]` when the primary pulsates, `[round(M/(q+q_err),1),
round(M/(q-q_err),1)]` when the secondary pulsates. -/
theorem companionMassRange_matches_spec (M q q_err : ℚ) (primary_pulsates : Bool) :
    companionMassRange M q q_err primary_pulsates =
      companionMassRange_spec M q q_err primary_pulsates := by
  cases primary_pulsates <;> rfl

/-- C8 counterexample: at `M = 5, q = 0.5, q_err = 0.05` the code's
primary-pulsates bounds are NOT `(2.25, 2.75)` and its secondary-pulsates
bounds are NOT `(4.55, 5.56)`: `round` to one decimal maps `2.25 ↦ 2.2`
and `2.75 ↦ 2.8` (ties to even), and the secondary formulas give
`5/0.55 ≈ 9.09` and `5/0.45 ≈ 11.11`, nowhere near the claimed pair. -/
theorem companionMassRange_digits_counterexample :
    companionMassRange 5 (1/2) (1/20) true ≠ ((9/4 : ℚ), (11/4 : ℚ)) ∧
    companionMassRange 5 (1/2) (1/20) false ≠ ((91/20 : ℚ), (139/25 : ℚ)) := by
  exact ⟨by with_unfolding_all decide, by with_unfolding_all decide⟩

/-- C8 amended: for `M = 5.0, q = 0.5, q_err = 0.05` the computed bounds
are `M2 ∈ [2.2, 2.8]` when the primary pulsates (round half to even maps
the exact ties 2.25 and 2.75 to 2.2 and 2.8) and `M2 ∈ [9.1, 11.1]` when
the secondary pulsates (`5/0.55` and `5/0.45` rounded to one decimal). -/
theorem companionMassRange_concrete_bounds :
    companionMassRange 5 (1/2) (1/20) true = ((11/5 : ℚ), (14/5 : ℚ)) ∧
    companionMassRange 5 (1/2) (1/20) false = ((91/10 : ℚ), (111/10 : ℚ)) := by
  exact ⟨by with_unfolding_all decide, by with_unfolding_all decide⟩

end Foam

namespace Foam

/-- The per-row pass `df_Theo.apply(func, axis=1)` of `spectro_constraint`
line 45: evaluate `enforce_binary_constraints` on every surviving row,
collecting the returned drop labels (`None` or the row's label); any fatal
error aborts the whole run. -/
def dropIndices (log10 : ℚ → ℚ) (spec : CompanionSpec) (iso : IsoGridSummary)
    (nsigma : ℚ) (grid : List GridRow) : List TheoRow → Except Err (List (Option ℕ))
  | [] => Except.ok []
  | r :: rs =>
    match enforce_binary_constraints log10 r spec iso nsigma grid with
    | Except.error e => Except.error e
    | Except.ok i =>
      match dropIndices log10 spec iso nsigma grid rs with
      | Except.error e => Except.error e
      | Except.ok rest => Except.ok (i :: rest)

/-- The drop loop of `spectro_constraint` lines 46-48: for every non-`None`
returned label, remove the rows carrying that label (`df_Theo.drop`).
The `index_to_drop == index_to_drop` NaN guard of line 47 is vacuous here
because row labels are integers, never NaN. -/
def applyDrops (idxs : List (Option ℕ)) (df : List TheoRow) : List TheoRow :=
  idxs.foldl (fun acc oi =>
    match oi with
    | none => acc
    | some i => acc.filter (fun r => decide (r.name ≠ i))) df

/-- `spectro_constraint` (lines 7-52): primary error-box filter, then — if
a companion spec is supplied — the mandatory-input check of lines 38-40
(logged `sys.exit` when the isocloud grid summary or the spectroscopic
grid file is `None`, BEFORE any companion evaluation) followed by the
per-row binary-constraint drops.  `Except.ok` is the filtered table that
line 52 writes to the output file; `Except.error` aborts with nothing
written. -/
def spectro_constraint (log10 : ℚ → ℚ) (obs : ObsRow) (nsigma : ℚ)
    (spectro_companion : Option CompanionSpec)
    (isocloud_grid_summary : Option IsoGridSummary)
    (spectroGrid_file : Option (List GridRow))
    (df_Theo : List TheoRow) : Except Err (List TheoRow) :=
  let dfT := spectro_primary_filter log10 obs nsigma df_Theo
  match spectro_companion with
  | none => Except.ok dfT
  | some spec =>
    match isocloud_grid_summary, spectroGrid_file with
    | some iso, some grid =>
      match dropIndices log10 spec iso nsigma grid dfT with
      | Except.error e => Except.error e
      | Except.ok idxs => Except.ok (applyDrops idxs dfT)
    | _, _ => Except.error Err.missingInput

/-- The primary filter only removes rows, preserving values and order. -/
theorem spectro_primary_filter_sublist (log10 : ℚ → ℚ) (obs : ObsRow) (nsigma : ℚ)
    (df : List TheoRow) :
    (spectro_primary_filter log10 obs nsigma df).Sublist df := by
  simp only [spectro_primary_filter]
  exact List.Sublist.trans (List.filter_sublist _)
    (List.Sublist.trans (List.filter_sublist _)
      (List.Sublist.trans (List.filter_sublist _)
        (List.Sublist.trans (List.filter_sublist _)
          (List.Sublist.trans (List.filter_sublist _) (List.filter_sublist _)))))

/-- The drop loop only removes rows, preserving values and order. -/
theorem applyDrops_sublist : ∀ (idxs : List (Option ℕ)) (df : List TheoRow),
    (applyDrops idxs df).Sublist df := by
  intro idxs
  induction idxs with
  | nil => intro df; exact List.Sublist.refl df
  | cons oi rest ih =>
    intro df
    cases oi with
    | none => exact ih df
    | some i => exact List.Sublist.trans (ih _) (List.filter_sublist _)

end Foam

namespace Foam

/-- C7: whenever the constraint run completes, the output table is a
sublist of the input grid — it has no more rows than the input, every
output row is identical (same values, and hence the same row label) to
some input row, surviving rows keep their relative order, and nothing is
added or mutated; the row type is unchanged, so no columns appear or
disappear. -/
theorem spectro_constraint_only_removes_rows (log10 : ℚ → ℚ) (obs : ObsRow)
    (nsigma : ℚ) (comp : Option CompanionSpec) (iso : Option IsoGridSummary)
    (grid : Option (List GridRow)) (df out : List TheoRow)
    (h : spectro_constraint log10 obs nsigma comp iso grid df = Except.ok out) :
    out.Sublist df ∧ out.length ≤ df.length := by
  have hsub : out.Sublist df := by
    cases comp with
    | none =>
      simp only [spectro_constraint, Except.ok.injEq] at h
      subst h
      exact spectro_primary_filter_sublist log10 obs nsigma df
    | some spec =>
      cases iso with
      | none =>
        simp only [spectro_constraint] at h
        exact Except.noConfusion h
      | some isoG =>
        cases grid with
        | none =>
          simp only [spectro_constraint] at h
          exact Except.noConfusion h
        | some g =>
          simp only [spectro_constraint] at h
          cases hd : dropIndices log10 spec isoG nsigma g
              (spectro_primary_filter log10 obs nsigma df) with
          | error e =>
            rw [hd] at h
            exact Except.noConfusion h
          | ok idxs =>
            rw [hd] at h
            simp only [Except.ok.injEq] at h
            subst h
            exact List.Sublist.trans (applyDrops_sublist idxs _)
              (spectro_primary_filter_sublist log10 obs nsigma df)
  exact ⟨hsub, hsub.length_le⟩

/-- Observation row used by the orchestrator witnesses; with `log10`
instantiated to the identity, `model69` lies strictly inside its 3-sigma
box. -/
def sampleObs : ObsRow :=
  { Teff := 4, Teff_err := 1/10, logg := 4, logg_err := 1/10, logL := 1, logL_err := 1/10 }

/-- C7 witness: a completed run on a one-row grid returns that row
unchanged, a sublist of the input of no greater length. -/
theorem spectro_constraint_only_removes_rows_witness :
    spectro_constraint (fun x => x) sampleObs 3 none none none [model69] =
      Except.ok [model69] ∧
    List.Sublist [model69] [model69] ∧
    ([model69] : List TheoRow).length ≤ ([model69] : List TheoRow).length := by
  have hrun : spectro_constraint (fun x => x) sampleObs 3 none none none [model69] =
      Except.ok [model69] := by with_unfolding_all decide
  have h := spectro_constraint_only_removes_rows (fun x => x) sampleObs 3 none none none
    [model69] [model69] hrun
  exact ⟨hrun, h.1, h.2⟩

/-- C9: when a companion spec is supplied but the isocloud grid summary or
the spectroscopic grid file is missing, the run aborts with the fatal
missing-input error — `Except.error` means the write of the filtered table
on line 52 is never reached, and the check (lines 38-40) fires before any
companion evaluation, whatever the remaining inputs hold. -/
theorem spectro_constraint_missing_input_fatal (log10 : ℚ → ℚ) (obs : ObsRow)
    (nsigma : ℚ) (spec : CompanionSpec) (iso : Option IsoGridSummary)
    (grid : Option (List GridRow)) (df : List TheoRow) :
    spectro_constraint log10 obs nsigma (some spec) none grid df =
      Except.error Err.missingInput ∧
    spectro_constraint log10 obs nsigma (some spec) iso none df =
      Except.error Err.missingInput := by
  constructor
  · cases grid <;> rfl
  · cases iso <;> rfl

end Foam
